import Mathlib

/-!
Shallow embedding of the adaptive playback control loop of the
zozo-player-stable repository: the adaptive-bitrate (ABR) decision engine
(`src/hooks/useAdaptiveBitrate.ts`), the health monitor
(`src/hooks/useHealthMonitor.ts`), the error-recovery controller
(`src/hooks/useErrorRecovery.ts`) and the real-bandwidth trend estimator
(`useRealBandwidth`). JavaScript numbers are modelled as rationals,
millisecond timestamps as naturals or integers, and the hooks' mutable
refs as explicit state records. Definitions come first, then the theorems
about them.
-/

/-- One rung of the quality ladder (`StreamQuality`): `bandwidth` is the
rung's required bandwidth in bits per second. -/
structure StreamQuality where
  bandwidth : ℚ
  label : String
deriving DecidableEq

/-- Configuration of the ABR hook (`ABRConfig` in `useAdaptiveBitrate.ts`).
`switchThreshold` is in seconds, `minSwitchInterval` in milliseconds,
buffer targets in seconds. -/
structure ABRConfig where
  enabled : Bool
  switchThreshold : ℚ
  minSwitchInterval : ℕ
  bufferTargetUp : ℚ
  bufferTargetDown : ℚ

/-- The default ABR configuration from the hook's default argument. -/
def defaultABRConfig : ABRConfig :=
  { enabled := true
    switchThreshold := 3
    minSwitchInterval := 10000
    bufferTargetUp := 8
    bufferTargetDown := 2 }

/-- Safety factor from `determineOptimalQuality` (line 53):
`healthScore > 80 ? 0.9 : healthScore > 60 ? 0.75 : 0.6`. -/
def safetyFactor (healthScore : ℚ) : ℚ :=
  if healthScore > 80 then 9/10 else if healthScore > 60 then 3/4 else 3/5

/-- Bandwidth target from `determineOptimalQuality` (lines 53-67): the
current bandwidth estimate scaled by the safety factor and a buffer-state
multiplier. -/
def targetBandwidth (cfg : ABRConfig) (currentBandwidth bufferLevel healthScore : ℚ) : ℚ :=
  let safeBandwidth := currentBandwidth * safetyFactor healthScore
  if bufferLevel < cfg.bufferTargetDown then safeBandwidth * (7/10)
  else if bufferLevel < cfg.bufferTargetUp then safeBandwidth * (17/20)
  else safeBandwidth * 1

/-- The switch gate `shouldSwitch` (lines 73-133 of `useAdaptiveBitrate.ts`).
`now` and `lastSwitchTime` are millisecond timestamps; `currentBandwidth`
is the estimate in Mbps; quality bandwidths are in bits per second. -/
def shouldSwitch (cfg : ABRConfig) (current target : Option StreamQuality)
    (now lastSwitchTime : ℕ) (bufferLevel healthScore currentBandwidth : ℚ)
    (stableCount : ℕ) : Bool × String :=
  match target with
  | none => (false, "ABR désactivé")
  | some t =>
    if cfg.enabled = false then (false, "ABR désactivé")
    else if now - lastSwitchTime < cfg.minSwitchInterval then
      (false, "Trop tôt pour changer")
    else
      match current with
      | none => (true, "Initialisation qualité")
      | some c =>
        if c.bandwidth = t.bandwidth then (false, "Qualité déjà optimale")
        else if bufferLevel < cfg.bufferTargetDown ∧ t.bandwidth < c.bandwidth then
          (true, "Buffer critique - downgrade urgent")
        else if healthScore < 50 ∧ t.bandwidth < c.bandwidth then
          (true, "Santé faible - downgrade recommandé")
        else if t.bandwidth > c.bandwidth then
          if bufferLevel < cfg.bufferTargetUp then
            (false, "Buffer insuffisant pour upgrade")
          else if healthScore < 70 then
            (false, "Santé insuffisante pour upgrade")
          else if stableCount < 2 then
            (false, "Conditions pas encore stables")
          else (true, "Conditions optimales - upgrade")
        else if t.bandwidth < c.bandwidth then
          if currentBandwidth < c.bandwidth / 1000000 * (12/10) then
            (true, "Bande passante insuffisante")
          else (false, "Conditions non réunies")
        else (false, "Conditions non réunies")

/-- Retry configuration of `useErrorRecovery` (`RetryConfig`): delays in
milliseconds. -/
structure RetryConfig where
  maxRetries : ℕ
  baseDelay : ℚ
  maxDelay : ℚ
  globalTimeout : ℤ

/-- The default retry configuration from the hook's default argument. -/
def defaultRetryConfig : RetryConfig :=
  { maxRetries := 5, baseDelay := 100, maxDelay := 10000, globalTimeout := 30000 }

/-- Recovery bookkeeping (`ErrorState`). `recoveryStartTime` is a
millisecond timestamp with 0 standing for "episode clock not running"
(the JavaScript code tests it for falsiness). -/
structure ErrorState where
  errorCount : ℕ
  lastError : Option String
  isRecovering : Bool
  nextRetryDelay : ℚ
  recoveryStartTime : ℕ
deriving DecidableEq

/-- The initial error state of the hook (`useState` initialiser). -/
def initialErrorState (cfg : RetryConfig) : ErrorState :=
  { errorCount := 0, lastError := none, isRecovering := false,
    nextRetryDelay := cfg.baseDelay, recoveryStartTime := 0 }

/-- JavaScript `Math.round`: round half toward positive infinity, i.e.
`⌊x + 1/2⌋`. -/
def jsRound (x : ℚ) : ℤ := ⌊x + 1/2⌋

/-- `calculateBackoff` (lines 48-57 of `useErrorRecovery.ts`): exponential
delay capped at `maxDelay`, then jitter `delay * 0.25 * (rand - 0.5)` for
a `Math.random()` draw `rand`, rounded. -/
def calculateBackoff (cfg : RetryConfig) (attemptNumber : ℕ) (rand : ℚ) : ℚ :=
  let exponentialDelay := min (cfg.baseDelay * 2 ^ attemptNumber) cfg.maxDelay
  let jitter := exponentialDelay * (1/4) * (rand - 1/2)
  ((jsRound (exponentialDelay + jitter) : ℤ) : ℚ)

/-- `recordError` (lines 59-74): increments the count, recomputes the
backoff from the new count, and starts the episode clock if not running. -/
def recordError (cfg : RetryConfig) (s : ErrorState) (error : String)
    (rand : ℚ) (now : ℕ) : ErrorState :=
  let newCount := s.errorCount + 1
  let nextDelay := calculateBackoff cfg newCount rand
  { errorCount := newCount
    lastError := some error
    isRecovering := false
    nextRetryDelay := nextDelay
    recoveryStartTime := if s.recoveryStartTime = 0 then now else s.recoveryStartTime }

/-- Outcome of the synchronous check phase of `attemptRecovery`: either an
immediate rejection with the thrown message, or the scheduling of the
recovery action after the stored backoff delay. -/
inductive RecoveryDecision where
  | rejected (msg : String)
  | scheduled (delay : ℚ)
deriving DecidableEq

/-- The synchronous check phase of `attemptRecovery` (lines 76-103):
reject when `errorCount >= maxRetries`; otherwise reject when the elapsed
time of the episode exceeds `globalTimeout`; otherwise schedule the
recovery action after `nextRetryDelay`. -/
def attemptRecoveryCheck (cfg : RetryConfig) (s : ErrorState) (now : ℕ) :
    RecoveryDecision :=
  if cfg.maxRetries ≤ s.errorCount then .rejected "Max retries exceeded"
  else
    let start : ℕ := if s.recoveryStartTime = 0 then now else s.recoveryStartTime
    let elapsed : ℤ := (now : ℤ) - (start : ℤ)
    if cfg.globalTimeout < elapsed then .rejected "Recovery timeout"
    else .scheduled s.nextRetryDelay

/-- `canRetry` (line 201): `errorState.errorCount < config.maxRetries`. -/
def canRetry (cfg : RetryConfig) (s : ErrorState) : Bool :=
  s.errorCount < cfg.maxRetries

/-- Completion handler of the scheduled recovery action (lines 125-162):
on success the state is fully reset; on failure the failure message is
recorded and recovering stops. The second component lists retries newly
scheduled by the handler itself — the code schedules none. -/
def recoveryResult (cfg : RetryConfig) (s : ErrorState) :
    Except String Unit → ErrorState × List ℚ
  | .ok _ => (initialErrorState cfg, [])
  | .error msg => ({ s with isRecovering := false, lastError := some msg }, [])

/-- Discrete health level of `HealthStatus`. -/
inductive HealthLevel where
  | excellent
  | good
  | warning
  | critical
deriving DecidableEq

/-- Configuration of the health monitor (`HealthMonitorConfig`): intervals
in milliseconds, buffer levels in seconds. -/
structure HealthConfig where
  checkInterval : ℤ
  stallThreshold : ℤ
  criticalBufferLevel : ℚ
  warningBufferLevel : ℚ

/-- The default health-monitor configuration from the hook's default
argument. -/
def defaultHealthConfig : HealthConfig :=
  { checkInterval := 1000, stallThreshold := 2000,
    criticalBufferLevel := 1, warningBufferLevel := 3 }

/-- `calculateScore` (lines 45-91 of `useHealthMonitor.ts`): start at 100,
subtract tiered penalties for buffer level, dropped-frame rate, stall
count and buffering ratio, and clamp to [0, 100]. The code computes
`bufferingRatio = bufferingTime / (now - lastCheck)` before comparing; it
is taken here as the input, matching the claim's tick input. -/
def calculateScore (cfg : HealthConfig)
    (bufferLevel droppedFrameRate stallCount bufferingRatio : ℚ) : ℚ :=
  let score : ℚ := 100
  let score := if bufferLevel < 1/2 then score - 40
    else if bufferLevel < cfg.criticalBufferLevel then score - 25
    else if bufferLevel < cfg.warningBufferLevel then score - 15
    else if bufferLevel < 5 then score - 5
    else score
  let score := if droppedFrameRate > 5 then score - 30
    else if droppedFrameRate > 2 then score - 15
    else if droppedFrameRate > 1/2 then score - 5
    else score
  let score := if stallCount > 8 then score - 20
    else if stallCount > 4 then score - 10
    else if stallCount > 1 then score - 5
    else score
  let score := if bufferingRatio > 3/10 then score - 10
    else if bufferingRatio > 3/20 then score - 5
    else score
  max 0 (min 100 score)

/-- Level mapping of the monitor tick (lines 142-145):
`score < 30 → critical; < 60 → warning; < 85 → good; else excellent`. -/
def healthLevel (score : ℚ) : HealthLevel :=
  if score < 30 then .critical
  else if score < 60 then .warning
  else if score < 85 then .good
  else .excellent

/-- Modelled from the claim's wording: the buffer deduction table
(40 below 0.5 s, 25 below 1 s, 15 below 3 s, 5 below 5 s). -/
def specBufferDeduction (b : ℚ) : ℚ :=
  if b < 1/2 then 40 else if b < 1 then 25 else if b < 3 then 15
  else if b < 5 then 5 else 0

/-- Modelled from the claim's wording: the dropped-frame deduction table
(30 above 5%, 15 above 2%, 5 above 0.5%). -/
def specDropDeduction (d : ℚ) : ℚ :=
  if d > 5 then 30 else if d > 2 then 15 else if d > 1/2 then 5 else 0

/-- Modelled from the claim's wording: the stall-count deduction table
(20 above 8, 10 above 4, 5 above 1). -/
def specStallDeduction (s : ℚ) : ℚ :=
  if s > 8 then 20 else if s > 4 then 10 else if s > 1 then 5 else 0

/-- Modelled from the claim's wording: the buffering-ratio deduction table
(10 above 0.3, 5 above 0.15). -/
def specRatioDeduction (r : ℚ) : ℚ :=
  if r > 3/10 then 10 else if r > 3/20 then 5 else 0

/-- Modelled from the claim's wording: 100 minus the four independent
deductions, clamped to [0, 100]. -/
def specHealthScore (b d s r : ℚ) : ℚ :=
  max 0 (min 100
    (100 - specBufferDeduction b - specDropDeduction d
      - specStallDeduction s - specRatioDeduction r))

/-- Mutable refs of the health-monitor tick loop: last observed playback
position, last tick timestamp, stall-episode start (`null` when not in an
episode), accumulated buffering time, and the stall counter. -/
structure MonitorState where
  lastTime : ℚ
  lastCheck : ℤ
  stalledSince : Option ℤ
  bufferingTime : ℤ
  stallCount : ℕ
deriving DecidableEq

/-- JavaScript truthiness of the nullable timestamp ref
`stalledSinceRef.current` (`null` and `0` are falsy). -/
def jsTruthyTime : Option ℤ → Bool
  | none => false
  | some t => !(t == 0)

/-- One stall-detection tick (lines 96-117 and 189-191 of
`useHealthMonitor.ts`): when not paused, position unchanged and the
elapsed time above the threshold, the tick is stalled — a transition into
the stalled state records the episode start and increments `stallCount`,
and every stalled tick accumulates the elapsed time into `bufferingTime`;
a tick with forward progress while an episode is active ends the episode.
The tick finally stores the position and timestamp for the next tick. -/
def monitorTick (cfg : HealthConfig) (s : MonitorState) (now : ℤ)
    (currentTime : ℚ) (paused : Bool) : MonitorState :=
  let timeSinceLastCheck := now - s.lastCheck
  let progressMade := currentTime - s.lastTime
  let s :=
    if paused = false ∧ progressMade = 0 ∧ timeSinceLastCheck > cfg.stallThreshold then
      let s :=
        if jsTruthyTime s.stalledSince = false then
          { s with stalledSince := some now, stallCount := s.stallCount + 1 }
        else s
      { s with bufferingTime := s.bufferingTime + timeSinceLastCheck }
    else if jsTruthyTime s.stalledSince = true ∧ progressMade > 0 then
      { s with stalledSince := none }
    else s
  { s with lastTime := currentTime, lastCheck := now }

/-- One byte-transfer observation of `useRealBandwidth`: transferred
bytes and a millisecond timestamp. -/
structure BwSample where
  bytes : ℚ
  time : ℚ
deriving DecidableEq

/-- Bandwidth trend classification of `BandwidthData`. -/
inductive BwTrend where
  | stable
  | increasing
  | decreasing
deriving DecidableEq

/-- The older half of the retained sample window: `samples.slice(0, mid)`
with `mid = floor(length / 2)`. -/
def oldHalf (samples : List BwSample) : List BwSample :=
  samples.take (samples.length / 2)

/-- The newer half of the retained sample window: `samples.slice(mid)`. -/
def newHalf (samples : List BwSample) : List BwSample :=
  samples.drop (samples.length / 2)

/-- Bitrate of one half (lines 107-113 of `useRealBandwidth`): summed
bytes times 8 over the half's time span in seconds times 1e6, or 0 when
the span is not positive. -/
def halfRate (h : List BwSample) : ℚ :=
  let totalBytes := (h.map BwSample.bytes).sum
  let timeSpan := ((h.getLastD ⟨0, 0⟩).time - (h.headD ⟨0, 0⟩).time) / 1000
  if timeSpan > 0 then totalBytes * 8 / (timeSpan * 1000000) else 0

/-- Trend classification (lines 100-117 of `useRealBandwidth`): with at
least 10 retained samples, compare the newer half's bitrate against 1.3
and 0.7 times the older half's; otherwise stable. -/
def computeTrend (samples : List BwSample) : BwTrend :=
  if samples.length ≥ 10 then
    let oldRate := halfRate (oldHalf samples)
    let newRate := halfRate (newHalf samples)
    if newRate > oldRate * (13/10) then .increasing
    else if newRate < oldRate * (7/10) then .decreasing
    else .stable
  else .stable

/-- Ten concrete samples whose older half carries 250000 bytes over 1 s
(2 Mbps) and whose newer half carries 375000 bytes over 1 s (3 Mbps). -/
def exampleSamples : List BwSample :=
  [⟨50000, 0⟩, ⟨50000, 250⟩, ⟨50000, 500⟩, ⟨50000, 750⟩, ⟨50000, 1000⟩,
   ⟨75000, 2000⟩, ⟨75000, 2250⟩, ⟨75000, 2500⟩, ⟨75000, 2750⟩, ⟨75000, 3000⟩]

/-- The ABR hook's complete mutable state: the React `ABRState` record
plus the refs `lastSwitchTimeRef`, `switchCountRef` (merged into
`switchCount`), `stableCountRef`, and the armed settle timer
(`adaptationTimerRef`) as the gate-pass time and candidate it would
commit. -/
structure ABRMachine where
  currentQuality : Option StreamQuality
  targetQuality : Option StreamQuality
  isAdapting : Bool
  adaptationReason : String
  switchCount : ℕ
  lastSwitchTime : ℕ
  stableCount : ℕ
  pending : Option (ℕ × StreamQuality)

/-- The hook's initial state: empty `ABRState`, refs at 0, no timer. -/
def abrInit : ABRMachine :=
  { currentQuality := none, targetQuality := none, isAdapting := false,
    adaptationReason := "", switchCount := 0, lastSwitchTime := 0,
    stableCount := 0, pending := none }

/-- Telemetry read by one decision tick: the optimal quality computed by
`determineOptimalQuality` and the inputs of the gate. -/
structure Telemetry where
  target : Option StreamQuality
  bufferLevel : ℚ
  healthScore : ℚ
  currentBandwidth : ℚ

/-- One decision tick of the monitoring effect (lines 141-196 of
`useAdaptiveBitrate.ts`): with no optimal quality the tick returns early;
an accepted candidate (re)arms the settle timer and enters adaptation; a
rejected one bumps the stability counter and clears the timer. -/
def abrTick (cfg : ABRConfig) (s : ABRMachine) (now : ℕ) (tel : Telemetry) :
    ABRMachine :=
  match tel.target with
  | none => s
  | some q =>
    let d := shouldSwitch cfg s.currentQuality (some q) now s.lastSwitchTime
      tel.bufferLevel tel.healthScore tel.currentBandwidth s.stableCount
    if d.1 then
      { s with targetQuality := some q, isAdapting := true,
               adaptationReason := d.2, pending := some (now, q) }
    else
      { s with stableCount := s.stableCount + 1, pending := none,
               targetQuality := none, isAdapting := false,
               adaptationReason := d.2 }

/-- Expiry of the settle timer (lines 161-179): if a timer is armed, the
pending candidate is committed — the switch counter advances, the switch
timestamp is recorded and the stability counter resets; the second
component reports the committed switch's timestamp. A cleared timer never
fires. -/
def abrFire (s : ABRMachine) (now : ℕ) : ABRMachine × Option ℕ :=
  match s.pending with
  | none => (s, none)
  | some (_, q) =>
    ({ s with currentQuality := some q, targetQuality := none,
              isAdapting := false, adaptationReason := "",
              switchCount := s.switchCount + 1, lastSwitchTime := now,
              stableCount := 0, pending := none }, some now)

/-- `setManualQuality` (lines 206-215): replaces the `ABRState` with the
chosen quality, reason "Manuel" and the unchanged switch counter, and
resets the stability counter; `lastSwitchTimeRef` is not touched. -/
def setManualQuality (s : ABRMachine) (quality : Option StreamQuality) :
    ABRMachine :=
  { s with currentQuality := quality, targetQuality := none,
           isAdapting := false, adaptationReason := "Manuel",
           switchCount := s.switchCount, stableCount := 0 }

/-- An event of the ABR loop: a decision tick reading fresh telemetry, or
the settle timer firing; each carries its wall-clock time. -/
inductive ABREvent where
  | tick (now : ℕ) (tel : Telemetry)
  | fire (now : ℕ)

/-- The wall-clock time at which an event happens. -/
def eventTime : ABREvent → ℕ
  | .tick now _ => now
  | .fire now => now

/-- Run the ABR machine over a chronological event list, collecting the
timestamps of the committed switches in order. -/
def abrRun (cfg : ABRConfig) : ABRMachine → List ABREvent → ABRMachine × List ℕ
  | s, [] => (s, [])
  | s, .tick now tel :: es => abrRun cfg (abrTick cfg s now tel) es
  | s, .fire now :: es =>
    let fired := abrFire s now
    let rest := abrRun cfg fired.1 es
    (rest.1, fired.2.toList ++ rest.2)

/-- Event times are nondecreasing and bounded below by `t`. -/
def timesMonotone : ℕ → List ABREvent → Bool
  | _, [] => true
  | t, e :: es => if t ≤ eventTime e then timesMonotone (eventTime e) es else false

/-- Machine invariant: an armed settle timer was armed at a gate-pass time
at least `minSwitchInterval` after the last committed switch, and not
after the current time `t`. -/
def GateInv (cfg : ABRConfig) (t : ℕ) (s : ABRMachine) : Prop :=
  ∀ g q, s.pending = some (g, q) →
    s.lastSwitchTime + cfg.minSwitchInterval ≤ g ∧ g ≤ t

/-- A 0.5 Mbps rung used by the concrete ABR traces. -/
def demoQuality : StreamQuality := ⟨500000, "480p"⟩

/-- A 0.25 Mbps rung used by the concrete ABR traces. -/
def demoQuality2 : StreamQuality := ⟨250000, "360p"⟩

/-- Telemetry selecting `demoQuality` under comfortable conditions. -/
def demoTelemetry : Telemetry :=
  { target := some demoQuality, bufferLevel := 10, healthScore := 90,
    currentBandwidth := 5 }

/-- Telemetry selecting `demoQuality2` under a critical buffer. -/
def demoTelemetry2 : Telemetry :=
  { target := some demoQuality2, bufferLevel := 1, healthScore := 90,
    currentBandwidth := 5 }

/-- A concrete chronological trace with two committed switches. -/
def demoTrace : List ABREvent :=
  [.tick 20000 demoTelemetry, .fire 23000,
   .tick 40000 demoTelemetry2, .fire 43000]

/-- C1 counterexample: the code computes the safety factor with strict
comparisons, so at healthScore exactly 80 the factor is 0.75 (not 0.9 as the
claim states), and at exactly 60 it is 0.6 (not 0.75). -/
theorem safetyFactor_boundary_counterexample :
    safetyFactor 80 = 3/4 ∧ ¬ safetyFactor 80 = 9/10 ∧
    safetyFactor 60 = 3/5 ∧ ¬ safetyFactor 60 = 3/4 := by
  refine ⟨?_, ?_, ?_, ?_⟩ <;> norm_num [safetyFactor]

/-- C1 amended: the safety factor is 0.9 when healthScore > 80, 0.75 when
60 < healthScore ≤ 80, and 0.6 when healthScore ≤ 60; in particular at
healthScore exactly 80 the factor is 0.75 and at exactly 60 it is 0.6. -/
theorem safetyFactor_tiers (h : ℚ) :
    (80 < h → safetyFactor h = 9/10) ∧
    (60 < h → h ≤ 80 → safetyFactor h = 3/4) ∧
    (h ≤ 60 → safetyFactor h = 3/5) := by
  refine ⟨fun h1 => ?_, fun h1 h2 => ?_, fun h1 => ?_⟩ <;>
    simp only [safetyFactor] <;> split_ifs <;> first | rfl | linarith

/-- C1 witness: the amended tier theorem evaluated at health scores 90, 80
and 60. -/
theorem safetyFactor_tiers_witness :
    safetyFactor 90 = 9/10 ∧ safetyFactor 80 = 3/4 ∧ safetyFactor 60 = 3/5 :=
  ⟨(safetyFactor_tiers 90).1 (by norm_num),
   (safetyFactor_tiers 80).2.1 (by norm_num) (by norm_num),
   (safetyFactor_tiers 60).2.2 (by norm_num)⟩

/-- C3 counterexample: with the current rung at 1 Mbps (1000000 bps), a
0.5 Mbps downgrade candidate, estimated bandwidth 1 Mbps, comfortable
buffer (5 s) and health 60, the gate ACCEPTS the downgrade (the code tests
`estimate < rung * 1.2`), although the claim's predicate
`rung > estimate * 1.2` is false there, so the claimed equivalence and the
claimed rejection both fail. -/
theorem shouldSwitch_downgrade_counterexample :
    (shouldSwitch defaultABRConfig (some ⟨1000000, "1Mbps"⟩)
        (some ⟨500000, "0.5Mbps"⟩) 20000 0 5 60 1 0).1 = true ∧
    ¬ ((1000000 : ℚ) / 1000000 > 1 * (12/10)) := by
  constructor
  · norm_num [shouldSwitch, defaultABRConfig]
  · norm_num

/-- C3 amended: for a downgrade candidate not accepted by the
critical-buffer rule or the low-health rule (and past the interval, target
and equality gates), the switch is accepted if and only if the current
estimated bandwidth is BELOW the current rung's requirement (in Mbps)
times 1.2 — i.e. the code tests `estimate < requirement * 1.2`, not
`requirement > estimate * 1.2`. -/
theorem shouldSwitch_downgrade_rule (cfg : ABRConfig) (c t : StreamQuality)
    (now lastSwitchTime : ℕ) (bufferLevel healthScore currentBandwidth : ℚ)
    (stableCount : ℕ)
    (henabled : cfg.enabled = true)
    (htime : ¬ now - lastSwitchTime < cfg.minSwitchInterval)
    (hdown : t.bandwidth < c.bandwidth)
    (hbuf : ¬ bufferLevel < cfg.bufferTargetDown)
    (hhealth : ¬ healthScore < 50) :
    (shouldSwitch cfg (some c) (some t) now lastSwitchTime bufferLevel
        healthScore currentBandwidth stableCount).1 = true ↔
      currentBandwidth < c.bandwidth / 1000000 * (12/10) := by
  have hne : ¬ c.bandwidth = t.bandwidth := by
    intro h; exact absurd h.symm (ne_of_lt hdown)
  have hnup : ¬ t.bandwidth > c.bandwidth := not_lt_of_gt hdown
  simp only [shouldSwitch]
  rw [if_neg (by simp [henabled]), if_neg htime, if_neg hne,
    if_neg (by tauto), if_neg (by tauto), if_neg hnup, if_pos hdown]
  by_cases hbw : currentBandwidth < c.bandwidth / 1000000 * (12/10)
  · rw [if_pos hbw]; simp [hbw]
  · rw [if_neg hbw]; simp [hbw]

/-- C3 witness: the amended downgrade rule applied at the concrete gate
input of the counterexample, where the estimate (1 Mbps) is below the
rung requirement times 1.2 (1.2 Mbps), so the downgrade is accepted. -/
theorem shouldSwitch_downgrade_rule_witness :
    (shouldSwitch defaultABRConfig (some ⟨1000000, "1Mbps"⟩)
        (some ⟨500000, "0.5Mbps"⟩) 20000 0 5 60 1 0).1 = true :=
  (shouldSwitch_downgrade_rule defaultABRConfig ⟨1000000, "1Mbps"⟩
      ⟨500000, "0.5Mbps"⟩ 20000 0 5 60 1 0 rfl (by norm_num [defaultABRConfig])
      (by norm_num) (by norm_num [defaultABRConfig]) (by norm_num)).mpr
    (by norm_num)

/-- `jsRound x` is at most `x + 1/2`. -/
theorem jsRound_le (x : ℚ) : ((jsRound x : ℤ) : ℚ) ≤ x + 1/2 := by
  simp only [jsRound]
  exact Int.floor_le (x + 1/2)

/-- `jsRound x` is at least `x - 1/2`. -/
theorem le_jsRound (x : ℚ) : x - 1/2 ≤ ((jsRound x : ℤ) : ℚ) := by
  have h := Int.sub_one_lt_floor (x + 1/2)
  simp only [jsRound]
  linarith

/-- C2: every `recordError` increments `errorCount`; the pre-jitter delay
is `min(baseDelay * 2^newCount, maxDelay)` and the stored post-jitter
delay stays within ±25% of it; concretely, with the default configuration
(`baseDelay = 100`, `maxDelay = 10000`), after 5 recorded errors the
pre-jitter delay is 3200 and the stored delay lies in [2400, 4000] for
every possible random draw. -/
theorem recordError_backoff :
    (∀ (cfg : RetryConfig) (s : ErrorState) (error : String) (rand : ℚ)
        (now : ℕ), 0 ≤ rand → rand ≤ 1 → 2 ≤ cfg.baseDelay →
        4 ≤ cfg.maxDelay →
      (recordError cfg s error rand now).errorCount = s.errorCount + 1 ∧
      min (cfg.baseDelay * 2 ^ (s.errorCount + 1)) cfg.maxDelay * (3/4)
        ≤ (recordError cfg s error rand now).nextRetryDelay ∧
      (recordError cfg s error rand now).nextRetryDelay
        ≤ min (cfg.baseDelay * 2 ^ (s.errorCount + 1)) cfg.maxDelay * (5/4)) ∧
    (∀ (r1 r2 r3 r4 r5 : ℚ) (n1 n2 n3 n4 n5 : ℕ), 0 ≤ r5 → r5 ≤ 1 →
      (recordError defaultRetryConfig
          (recordError defaultRetryConfig
            (recordError defaultRetryConfig
              (recordError defaultRetryConfig
                (recordError defaultRetryConfig
                  (initialErrorState defaultRetryConfig) "e1" r1 n1)
                "e2" r2 n2) "e3" r3 n3) "e4" r4 n4) "e5" r5 n5).errorCount = 5 ∧
      min (defaultRetryConfig.baseDelay * 2 ^ 5) defaultRetryConfig.maxDelay
        = (3200 : ℚ) ∧
      (2400 : ℚ) ≤ (recordError defaultRetryConfig
          (recordError defaultRetryConfig
            (recordError defaultRetryConfig
              (recordError defaultRetryConfig
                (recordError defaultRetryConfig
                  (initialErrorState defaultRetryConfig) "e1" r1 n1)
                "e2" r2 n2) "e3" r3 n3) "e4" r4 n4) "e5" r5 n5).nextRetryDelay ∧
      (recordError defaultRetryConfig
          (recordError defaultRetryConfig
            (recordError defaultRetryConfig
              (recordError defaultRetryConfig
                (recordError defaultRetryConfig
                  (initialErrorState defaultRetryConfig) "e1" r1 n1)
                "e2" r2 n2) "e3" r3 n3) "e4" r4 n4) "e5" r5 n5).nextRetryDelay
        ≤ (4000 : ℚ)) := by
  constructor
  · intro cfg s error rand now hr0 hr1 hbase hmax
    have hpow : (2:ℚ) ≤ 2 ^ (s.errorCount + 1) := by
      calc (2:ℚ) = 2 ^ 1 := (pow_one 2).symm
      _ ≤ 2 ^ (s.errorCount + 1) := by
        apply pow_le_pow_right₀ (by norm_num)
        omega
    have hpre4 : (4:ℚ) ≤ min (cfg.baseDelay * 2 ^ (s.errorCount + 1)) cfg.maxDelay := by
      apply le_min _ hmax
      nlinarith
    set pre := min (cfg.baseDelay * 2 ^ (s.errorCount + 1)) cfg.maxDelay with hpre
    have hdelay : (recordError cfg s error rand now).nextRetryDelay
        = ((jsRound (pre + pre * (1/4) * (rand - 1/2)) : ℤ) : ℚ) := by
      simp [recordError, calculateBackoff, hpre]
    have hj1 : pre * (1/4) * (rand - 1/2) ≤ pre * (1/8) := by nlinarith
    have hj2 : -(pre * (1/8)) ≤ pre * (1/4) * (rand - 1/2) := by nlinarith
    have hup := jsRound_le (pre + pre * (1/4) * (rand - 1/2))
    have hlo := le_jsRound (pre + pre * (1/4) * (rand - 1/2))
    refine ⟨by simp [recordError], ?_, ?_⟩
    · rw [hdelay]; linarith
    · rw [hdelay]; linarith
  · intro r1 r2 r3 r4 r5 n1 n2 n3 n4 n5 hr0 hr1
    refine ⟨by simp [recordError, initialErrorState], ?_, ?_, ?_⟩
    · norm_num [defaultRetryConfig]
    · have hdelay : (recordError defaultRetryConfig
          (recordError defaultRetryConfig
            (recordError defaultRetryConfig
              (recordError defaultRetryConfig
                (recordError defaultRetryConfig
                  (initialErrorState defaultRetryConfig) "e1" r1 n1)
                "e2" r2 n2) "e3" r3 n3) "e4" r4 n4) "e5" r5 n5).nextRetryDelay
          = ((jsRound (3200 + 3200 * (1/4) * (r5 - 1/2)) : ℤ) : ℚ) := by
        norm_num [recordError, calculateBackoff, initialErrorState, defaultRetryConfig]
      have hlo := le_jsRound (3200 + 3200 * (1/4) * (r5 - 1/2))
      rw [hdelay]; linarith
    · have hdelay : (recordError defaultRetryConfig
          (recordError defaultRetryConfig
            (recordError defaultRetryConfig
              (recordError defaultRetryConfig
                (recordError defaultRetryConfig
                  (initialErrorState defaultRetryConfig) "e1" r1 n1)
                "e2" r2 n2) "e3" r3 n3) "e4" r4 n4) "e5" r5 n5).nextRetryDelay
          = ((jsRound (3200 + 3200 * (1/4) * (r5 - 1/2)) : ℤ) : ℚ) := by
        norm_num [recordError, calculateBackoff, initialErrorState, defaultRetryConfig]
      have hup := jsRound_le (3200 + 3200 * (1/4) * (r5 - 1/2))
      rw [hdelay]; linarith

/-- C2 witness: the general bound instantiated at the fifth recorded error
of the default configuration with the middle random draw 1/2, and the
concrete scenario's conclusions at explicit draws. -/
theorem recordError_backoff_witness :
    (recordError defaultRetryConfig
        (recordError defaultRetryConfig
          (recordError defaultRetryConfig
            (recordError defaultRetryConfig
              (recordError defaultRetryConfig
                (initialErrorState defaultRetryConfig) "e1" (1/2) 1)
              "e2" (1/2) 2) "e3" (1/2) 3) "e4" (1/2) 4) "e5" (1/2) 5).errorCount = 5 ∧
    min (defaultRetryConfig.baseDelay * 2 ^ 5) defaultRetryConfig.maxDelay
      = (3200 : ℚ) ∧
    (2400 : ℚ) ≤ (recordError defaultRetryConfig
        (recordError defaultRetryConfig
          (recordError defaultRetryConfig
            (recordError defaultRetryConfig
              (recordError defaultRetryConfig
                (initialErrorState defaultRetryConfig) "e1" (1/2) 1)
              "e2" (1/2) 2) "e3" (1/2) 3) "e4" (1/2) 4) "e5" (1/2) 5).nextRetryDelay ∧
    (recordError defaultRetryConfig
        (recordError defaultRetryConfig
          (recordError defaultRetryConfig
            (recordError defaultRetryConfig
              (recordError defaultRetryConfig
                (initialErrorState defaultRetryConfig) "e1" (1/2) 1)
              "e2" (1/2) 2) "e3" (1/2) 3) "e4" (1/2) 4) "e5" (1/2) 5).nextRetryDelay
      ≤ (4000 : ℚ) :=
  recordError_backoff.2 (1/2) (1/2) (1/2) (1/2) (1/2) 1 2 3 4 5
    (by norm_num) (by norm_num)

/-- C5: `attemptRecovery` rejects immediately, without scheduling the
action, when `errorCount >= maxRetries` or when the episode's elapsed time
exceeds `globalTimeout`, each ceiling independently of the other;
`canRetry` is the pure predicate `errorCount < maxRetries`, and at
`errorCount = maxRetries` it is false and the attempt is rejected. -/
theorem attemptRecovery_ceilings (cfg : RetryConfig) (s : ErrorState) (now : ℕ) :
    (cfg.maxRetries ≤ s.errorCount →
      attemptRecoveryCheck cfg s now = .rejected "Max retries exceeded") ∧
    (cfg.globalTimeout < (now : ℤ) -
        ((if s.recoveryStartTime = 0 then now else s.recoveryStartTime : ℕ) : ℤ) →
      ∀ d, attemptRecoveryCheck cfg s now ≠ .scheduled d) ∧
    (canRetry cfg s = decide (s.errorCount < cfg.maxRetries)) ∧
    (s.errorCount = cfg.maxRetries →
      canRetry cfg s = false ∧
      attemptRecoveryCheck cfg s now = .rejected "Max retries exceeded") := by
  refine ⟨fun hmax => ?_, fun htime d => ?_, rfl, fun heq => ⟨?_, ?_⟩⟩
  · simp [attemptRecoveryCheck, hmax]
  · by_cases h1 : cfg.maxRetries ≤ s.errorCount
    · simp [attemptRecoveryCheck, h1]
    · have htime' : cfg.globalTimeout < (now : ℤ) -
          (if s.recoveryStartTime = 0 then (now : ℤ) else (s.recoveryStartTime : ℤ)) := by
        rcases eq_or_ne s.recoveryStartTime 0 with h0 | h0
        · rw [if_pos h0] at htime ⊢; exact htime
        · rw [if_neg h0] at htime ⊢; exact htime
      simp [attemptRecoveryCheck, h1, htime']
  · simp [canRetry, heq]
  · simp [attemptRecoveryCheck, heq]

/-- C5 witness: at the default configuration with 5 recorded errors,
`canRetry` is false and the attempt is rejected without scheduling; an
exhausted-timeout state is likewise rejected. -/
theorem attemptRecovery_ceilings_witness :
    attemptRecoveryCheck defaultRetryConfig
        ⟨5, some "err", false, 3200, 1000⟩ 2000 = .rejected "Max retries exceeded" ∧
    canRetry defaultRetryConfig ⟨5, some "err", false, 3200, 1000⟩ = false ∧
    (∀ d, attemptRecoveryCheck defaultRetryConfig
        ⟨2, some "err", false, 400, 1000⟩ 40000 ≠ .scheduled d) :=
  ⟨(attemptRecovery_ceilings defaultRetryConfig
      ⟨5, some "err", false, 3200, 1000⟩ 2000).1 (by norm_num [defaultRetryConfig]),
   ((attemptRecovery_ceilings defaultRetryConfig
      ⟨5, some "err", false, 3200, 1000⟩ 2000).2.2.2 rfl).1,
   (attemptRecovery_ceilings defaultRetryConfig
      ⟨2, some "err", false, 400, 1000⟩ 40000).2.1
     (by norm_num [defaultRetryConfig])⟩

/-- C7: when the scheduled recovery action resolves successfully the error
state is fully reset (`errorCount = 0`, `lastError` cleared,
`nextRetryDelay = baseDelay`, `recoveryStartTime` cleared,
`isRecovering = false`); when it fails, the new message is recorded while
`errorCount` and the backoff delay are unchanged; in neither case does the
handler schedule a retry by itself. -/
theorem recoveryResult_outcomes (cfg : RetryConfig) (s : ErrorState) :
    ((recoveryResult cfg s (.ok ())).1.errorCount = 0 ∧
     (recoveryResult cfg s (.ok ())).1.lastError = none ∧
     (recoveryResult cfg s (.ok ())).1.nextRetryDelay = cfg.baseDelay ∧
     (recoveryResult cfg s (.ok ())).1.recoveryStartTime = 0 ∧
     (recoveryResult cfg s (.ok ())).1.isRecovering = false ∧
     (recoveryResult cfg s (.ok ())).2 = []) ∧
    (∀ msg : String,
     (recoveryResult cfg s (.error msg)).1.errorCount = s.errorCount ∧
     (recoveryResult cfg s (.error msg)).1.nextRetryDelay = s.nextRetryDelay ∧
     (recoveryResult cfg s (.error msg)).1.lastError = some msg ∧
     (recoveryResult cfg s (.error msg)).1.isRecovering = false ∧
     (recoveryResult cfg s (.error msg)).2 = []) := by
  exact ⟨⟨rfl, rfl, rfl, rfl, rfl, rfl⟩, fun msg => ⟨rfl, rfl, rfl, rfl, rfl⟩⟩

/-- The buffer penalty chain of `calculateScore` subtracts exactly the
spec's buffer deduction. -/
theorem bufferChain_eq (x b : ℚ) :
    (if b < 1/2 then x - 40
      else if b < defaultHealthConfig.criticalBufferLevel then x - 25
      else if b < defaultHealthConfig.warningBufferLevel then x - 15
      else if b < 5 then x - 5
      else x) = x - specBufferDeduction b := by
  simp only [specBufferDeduction, defaultHealthConfig]
  split_ifs <;> ring

/-- The dropped-frame penalty chain of `calculateScore` subtracts exactly
the spec's deduction. -/
theorem dropChain_eq (x d : ℚ) :
    (if d > 5 then x - 30
      else if d > 2 then x - 15
      else if d > 1/2 then x - 5
      else x) = x - specDropDeduction d := by
  simp only [specDropDeduction]
  split_ifs <;> ring

/-- The stall penalty chain of `calculateScore` subtracts exactly the
spec's deduction. -/
theorem stallChain_eq (x s : ℚ) :
    (if s > 8 then x - 20
      else if s > 4 then x - 10
      else if s > 1 then x - 5
      else x) = x - specStallDeduction s := by
  simp only [specStallDeduction]
  split_ifs <;> ring

/-- The buffering-ratio penalty chain of `calculateScore` subtracts
exactly the spec's deduction. -/
theorem ratioChain_eq (x r : ℚ) :
    (if r > 3/10 then x - 10
      else if r > 3/20 then x - 5
      else x) = x - specRatioDeduction r := by
  simp only [specRatioDeduction]
  split_ifs <;> ring

/-- The level mapping as interval conditions on the score. -/
theorem healthLevel_iff (sc : ℚ) :
    (healthLevel sc = .critical ↔ sc < 30) ∧
    (healthLevel sc = .warning ↔ 30 ≤ sc ∧ sc < 60) ∧
    (healthLevel sc = .good ↔ 60 ≤ sc ∧ sc < 85) ∧
    (healthLevel sc = .excellent ↔ 85 ≤ sc) := by
  unfold healthLevel
  split_ifs with h1 h2 h3 <;>
    refine ⟨?_, ?_, ?_, ?_⟩ <;> simp_all <;> first | linarith | (intro h; linarith)

/-- C4: for every tick input, including adversarial ones, the health score
equals 100 minus the four independent tier deductions clamped to [0, 100],
and the level is critical iff score < 30, warning iff 30 ≤ score < 60,
good iff 60 ≤ score < 85, and excellent iff 85 ≤ score. -/
theorem calculateScore_spec (b d st r : ℚ) :
    calculateScore defaultHealthConfig b d st r = specHealthScore b d st r ∧
    0 ≤ calculateScore defaultHealthConfig b d st r ∧
    calculateScore defaultHealthConfig b d st r ≤ 100 ∧
    (healthLevel (calculateScore defaultHealthConfig b d st r) = .critical ↔
      calculateScore defaultHealthConfig b d st r < 30) ∧
    (healthLevel (calculateScore defaultHealthConfig b d st r) = .warning ↔
      30 ≤ calculateScore defaultHealthConfig b d st r ∧
        calculateScore defaultHealthConfig b d st r < 60) ∧
    (healthLevel (calculateScore defaultHealthConfig b d st r) = .good ↔
      60 ≤ calculateScore defaultHealthConfig b d st r ∧
        calculateScore defaultHealthConfig b d st r < 85) ∧
    (healthLevel (calculateScore defaultHealthConfig b d st r) = .excellent ↔
      85 ≤ calculateScore defaultHealthConfig b d st r) := by
  have heq : calculateScore defaultHealthConfig b d st r = specHealthScore b d st r := by
    simp only [calculateScore]
    rw [bufferChain_eq, dropChain_eq, stallChain_eq, ratioChain_eq]
    rfl
  have hiff := healthLevel_iff (calculateScore defaultHealthConfig b d st r)
  refine ⟨heq, ?_, ?_, hiff.1, hiff.2.1, hiff.2.2.1, hiff.2.2.2⟩
  · rw [heq]; unfold specHealthScore; positivity
  · rw [heq]; unfold specHealthScore
    calc max 0 (min 100 (100 - specBufferDeduction b - specDropDeduction d
          - specStallDeduction st - specRatioDeduction r))
        ≤ max (0:ℚ) 100 := by
          apply max_le_max le_rfl (min_le_left _ _)
      _ = 100 := by norm_num

/-- C4 witness: the spec examples — buffer 0.3 s with clean frames gives
score 60 and level good; buffer 6 s, 6% drops, 9 stalls, ratio 0.4 gives
score 40 and level warning. -/
theorem calculateScore_spec_witness :
    calculateScore defaultHealthConfig (3/10) 0 0 0 = specHealthScore (3/10) 0 0 0 ∧
    (healthLevel (calculateScore defaultHealthConfig (3/10) 0 0 0) = .good ↔
      60 ≤ calculateScore defaultHealthConfig (3/10) 0 0 0 ∧
        calculateScore defaultHealthConfig (3/10) 0 0 0 < 85) ∧
    calculateScore defaultHealthConfig 6 6 9 (2/5) = specHealthScore 6 6 9 (2/5) :=
  ⟨(calculateScore_spec (3/10) 0 0 0).1,
   (calculateScore_spec (3/10) 0 0 0).2.2.2.2.2.1,
   (calculateScore_spec 6 6 9 (2/5)).1⟩

/-- C9: a tick with playback not paused, no position change and elapsed
time above the stall threshold is stalled: entering a stall episode stores
the episode start and increments `stallCount`; a consecutive stalled tick
inside an episode accumulates the elapsed time without incrementing; and a
tick with forward progress during an episode ends the episode without
touching the counters. -/
theorem monitorTick_stall (cfg : HealthConfig) (s : MonitorState) (now : ℤ)
    (currentTime : ℚ) :
    (currentTime = s.lastTime → now - s.lastCheck > cfg.stallThreshold →
      ((s.stalledSince = none →
        (monitorTick cfg s now currentTime false).stallCount = s.stallCount + 1 ∧
        (monitorTick cfg s now currentTime false).stalledSince = some now ∧
        (monitorTick cfg s now currentTime false).bufferingTime
          = s.bufferingTime + (now - s.lastCheck)) ∧
       (∀ t : ℤ, s.stalledSince = some t → t ≠ 0 →
        (monitorTick cfg s now currentTime false).stallCount = s.stallCount ∧
        (monitorTick cfg s now currentTime false).stalledSince = some t ∧
        (monitorTick cfg s now currentTime false).bufferingTime
          = s.bufferingTime + (now - s.lastCheck)))) ∧
    (∀ t : ℤ, s.stalledSince = some t → t ≠ 0 → currentTime > s.lastTime →
      (monitorTick cfg s now currentTime false).stalledSince = none ∧
      (monitorTick cfg s now currentTime false).stallCount = s.stallCount ∧
      (monitorTick cfg s now currentTime false).bufferingTime = s.bufferingTime) := by
  constructor
  · intro hpos helapsed
    have hprog : currentTime - s.lastTime = 0 := by rw [hpos]; ring
    constructor
    · intro hnone
      simp [monitorTick, hprog, helapsed, hnone, jsTruthyTime]
    · intro t ht htz
      simp [monitorTick, hprog, helapsed, ht, jsTruthyTime, htz]
  · intro t ht htz hfwd
    have hprog : ¬ currentTime - s.lastTime = 0 := by
      intro h
      have : currentTime = s.lastTime := by linarith
      linarith
    have hfwd' : currentTime - s.lastTime > 0 := by linarith
    simp [monitorTick, hprog, ht, jsTruthyTime, htz, hfwd']

/-- C9 witness: a concrete three-tick episode — entering a stall at
t = 5000, staying stalled at t = 8000, recovering at t = 9000. -/
theorem monitorTick_stall_witness :
    (monitorTick defaultHealthConfig
      ⟨10, 1000, none, 0, 0⟩ 5000 10 false).stallCount = 0 + 1 ∧
    (monitorTick defaultHealthConfig
      ⟨10, 2000, some 5000, 3000, 1⟩ 8000 10 false).stallCount = 1 ∧
    (monitorTick defaultHealthConfig
      ⟨10, 8000, some 5000, 9000, 1⟩ 9000 (21/2) false).stalledSince = none :=
  ⟨(((monitorTick_stall defaultHealthConfig ⟨10, 1000, none, 0, 0⟩ 5000 10).1
      rfl (by norm_num [defaultHealthConfig])).1 rfl).1,
   (((monitorTick_stall defaultHealthConfig ⟨10, 2000, some 5000, 3000, 1⟩ 8000 10).1
      rfl (by norm_num [defaultHealthConfig])).2 5000 rfl (by norm_num)).1,
   ((monitorTick_stall defaultHealthConfig ⟨10, 8000, some 5000, 9000, 1⟩ 9000 (21/2)).2
      5000 rfl (by norm_num) (by norm_num)).1⟩

/-- Every half of a window of nonnegative-byte samples has a nonnegative
bitrate (the estimator only records samples with positive byte counts). -/
theorem halfRate_nonneg (l : List BwSample) (h : ∀ x ∈ l, 0 ≤ x.bytes) :
    0 ≤ halfRate l := by
  simp only [halfRate]
  split_ifs with hspan
  · apply div_nonneg
    · have hsum : 0 ≤ (l.map BwSample.bytes).sum := by
        apply List.sum_nonneg
        intro b hb
        obtain ⟨x, hx, rfl⟩ := List.mem_map.mp hb
        exact h x hx
      linarith
    · positivity
  · exact le_refl 0

/-- C8: given at least 10 retained samples (all with nonnegative byte
counts, as the estimator only records positive transfers), the trend is
increasing iff the newer half's bitrate exceeds 1.3 times the older
half's, decreasing iff it is below 0.7 times, and stable otherwise; with
fewer than 10 samples the trend is stable; on the concrete window with
half rates 2 Mbps and 3 Mbps the trend is increasing. -/
theorem computeTrend_spec :
    (∀ samples : List BwSample, 10 ≤ samples.length →
      (∀ x ∈ samples, 0 ≤ x.bytes) →
      ((computeTrend samples = .increasing ↔
        halfRate (newHalf samples) > halfRate (oldHalf samples) * (13/10)) ∧
       (computeTrend samples = .decreasing ↔
        halfRate (newHalf samples) < halfRate (oldHalf samples) * (7/10)) ∧
       (computeTrend samples = .stable ↔
        (¬ halfRate (newHalf samples) > halfRate (oldHalf samples) * (13/10) ∧
         ¬ halfRate (newHalf samples) < halfRate (oldHalf samples) * (7/10))))) ∧
    (∀ samples : List BwSample, samples.length < 10 →
      computeTrend samples = .stable) ∧
    (halfRate (oldHalf exampleSamples) = 2 ∧
     halfRate (newHalf exampleSamples) = 3 ∧
     computeTrend exampleSamples = .increasing) := by
  refine ⟨?_, ?_, ?_, ?_, ?_⟩
  · intro samples hlen hbytes
    have hold : 0 ≤ halfRate (oldHalf samples) :=
      halfRate_nonneg _ (fun x hx => hbytes x (List.take_subset _ _ hx))
    simp only [computeTrend]
    rw [if_pos hlen]
    by_cases h1 : halfRate (newHalf samples) > halfRate (oldHalf samples) * (13/10)
    · rw [if_pos h1]
      refine ⟨by simp [h1], ?_, by simp [h1]⟩
      simp only [reduceCtorEq, false_iff, not_lt]
      nlinarith
    · rw [if_neg h1]
      by_cases h2 : halfRate (newHalf samples) < halfRate (oldHalf samples) * (7/10)
      · rw [if_pos h2]
        refine ⟨by simp [h1], by simp [h2], by simp [h2]⟩
      · rw [if_neg h2]
        refine ⟨by simp [h1], by simp [h2], by simp [h1, h2]⟩
  · intro samples hlen
    simp only [computeTrend]
    rw [if_neg (by omega)]
  · norm_num [halfRate, oldHalf, exampleSamples, List.getLastD]
  · norm_num [halfRate, newHalf, exampleSamples, List.getLastD]
  · norm_num [computeTrend, halfRate, oldHalf, newHalf, exampleSamples,
      List.getLastD]

/-- C8 witness: the low-sample branch applied to the empty window, and the
concrete example's classification from the theorem itself. -/
theorem computeTrend_spec_witness :
    computeTrend [] = .stable ∧ computeTrend exampleSamples = .increasing :=
  ⟨computeTrend_spec.2.1 [] (by norm_num), computeTrend_spec.2.2.2.2⟩

/-- C10: a manual override sets the chosen quality with reason "Manuel",
leaves adaptation off with no target, resets the stability (hysteresis)
counter, and leaves both the switch counter and the last-switch timestamp
untouched, so it neither counts as an automatic switch nor restarts the
min-switch-interval clock. -/
theorem setManualQuality_spec (s : ABRMachine) (q : Option StreamQuality) :
    (setManualQuality s q).currentQuality = q ∧
    (setManualQuality s q).targetQuality = none ∧
    (setManualQuality s q).isAdapting = false ∧
    (setManualQuality s q).adaptationReason = "Manuel" ∧
    (setManualQuality s q).stableCount = 0 ∧
    (setManualQuality s q).switchCount = s.switchCount ∧
    (setManualQuality s q).lastSwitchTime = s.lastSwitchTime :=
  ⟨rfl, rfl, rfl, rfl, rfl, rfl, rfl⟩

/-- An accepted gate implies the minimum interval had elapsed. -/
theorem shouldSwitch_gate_interval (cfg : ABRConfig)
    (current target : Option StreamQuality) (now lastSwitchTime : ℕ)
    (bufferLevel healthScore currentBandwidth : ℚ) (stableCount : ℕ)
    (hs : (shouldSwitch cfg current target now lastSwitchTime bufferLevel
      healthScore currentBandwidth stableCount).1 = true) :
    ¬ now - lastSwitchTime < cfg.minSwitchInterval := by
  intro htime
  cases target with
  | none => simp [shouldSwitch] at hs
  | some t =>
    by_cases he : cfg.enabled = false
    · simp [shouldSwitch, he] at hs
    · simp [shouldSwitch, he, htime] at hs

/-- Splitting a monotone event list at its head. -/
theorem timesMonotone_cons {t : ℕ} {e : ABREvent} {es : List ABREvent}
    (h : timesMonotone t (e :: es) = true) :
    t ≤ eventTime e ∧ timesMonotone (eventTime e) es = true := by
  by_cases hle : t ≤ eventTime e
  · refine ⟨hle, ?_⟩
    simp only [timesMonotone, if_pos hle] at h
    exact h
  · simp only [timesMonotone, if_neg hle] at h
    exact absurd h (by simp)

/-- A decision tick never moves the last-switch timestamp. -/
theorem abrTick_lastSwitchTime (cfg : ABRConfig) (s : ABRMachine) (now : ℕ)
    (tel : Telemetry) :
    (abrTick cfg s now tel).lastSwitchTime = s.lastSwitchTime := by
  simp only [abrTick]
  cases tel.target with
  | none => rfl
  | some q => dsimp only; split <;> rfl

/-- A decision tick preserves the gate invariant at the tick's time. -/
theorem abrTick_inv (cfg : ABRConfig) (hm : 0 < cfg.minSwitchInterval)
    {t : ℕ} {s : ABRMachine} (now : ℕ) (tel : Telemetry)
    (hinv : GateInv cfg t s) (hnow : t ≤ now) :
    GateInv cfg now (abrTick cfg s now tel) := by
  intro g q hpend
  rw [abrTick_lastSwitchTime]
  simp only [abrTick] at hpend
  cases htel : tel.target with
  | none =>
    rw [htel] at hpend
    obtain ⟨h1, h2⟩ := hinv g q hpend
    exact ⟨h1, le_trans h2 hnow⟩
  | some candidate =>
    rw [htel] at hpend
    dsimp only at hpend
    by_cases hd : (shouldSwitch cfg s.currentQuality (some candidate) now
        s.lastSwitchTime tel.bufferLevel tel.healthScore tel.currentBandwidth
        s.stableCount).1 = true
    · rw [if_pos hd] at hpend
      simp only [Option.some.injEq, Prod.mk.injEq] at hpend
      obtain ⟨hg, hq⟩ := hpend
      have hgate := shouldSwitch_gate_interval cfg s.currentQuality
        (some candidate) now s.lastSwitchTime tel.bufferLevel tel.healthScore
        tel.currentBandwidth s.stableCount hd
      have hsep : s.lastSwitchTime + cfg.minSwitchInterval ≤ now := by omega
      subst hg
      exact ⟨hsep, le_refl now⟩
    · rw [if_neg hd] at hpend
      simp at hpend

/-- Commits collected along a monotone trace from an invariant-respecting
state are pairwise separated by the minimum switch interval and all lie
at least the interval after the state's last switch. -/
theorem abrRun_commits (cfg : ABRConfig) (hm : 0 < cfg.minSwitchInterval) :
    ∀ (es : List ABREvent) (t : ℕ) (s : ABRMachine),
      timesMonotone t es = true → GateInv cfg t s →
      List.Pairwise (fun a b => a + cfg.minSwitchInterval ≤ b)
        (abrRun cfg s es).2 ∧
      ∀ c ∈ (abrRun cfg s es).2,
        s.lastSwitchTime + cfg.minSwitchInterval ≤ c := by
  intro es
  induction es with
  | nil =>
    intro t s _ _
    simp [abrRun]
  | cons e es ih =>
    intro t s hmono hinv
    obtain ⟨hle, hmono'⟩ := timesMonotone_cons hmono
    cases e with
    | tick now tel =>
      simp only [abrRun]
      have hinv' : GateInv cfg now (abrTick cfg s now tel) :=
        abrTick_inv cfg hm now tel hinv (by simpa [eventTime] using hle)
      obtain ⟨hp, hall⟩ := ih now (abrTick cfg s now tel)
        (by simpa [eventTime] using hmono') hinv'
      refine ⟨hp, ?_⟩
      intro c hc
      have := hall c hc
      rwa [abrTick_lastSwitchTime] at this
    | fire now =>
      cases hpend : s.pending with
      | none =>
        have hfire : abrFire s now = (s, none) := by
          simp [abrFire, hpend]
        simp only [abrRun, hfire]
        have hinv' : GateInv cfg now s := by
          intro g q hg
          rw [hpend] at hg
          exact absurd hg (by simp)
        obtain ⟨hp, hall⟩ := ih now s (by simpa [eventTime] using hmono') hinv'
        simpa using ⟨hp, hall⟩
      | some gq =>
        obtain ⟨g, q⟩ := gq
        have hfire : abrFire s now =
            ({ s with currentQuality := some q, targetQuality := none,
                      isAdapting := false, adaptationReason := "",
                      switchCount := s.switchCount + 1, lastSwitchTime := now,
                      stableCount := 0, pending := none }, some now) := by
          simp [abrFire, hpend]
        simp only [abrRun, hfire]
        obtain ⟨hsep, hgt⟩ := hinv g q hpend
        have hnow : g ≤ now := le_trans hgt (by simpa [eventTime] using hle)
        have hinv' : GateInv cfg now
            { s with currentQuality := some q, targetQuality := none,
                     isAdapting := false, adaptationReason := "",
                     switchCount := s.switchCount + 1, lastSwitchTime := now,
                     stableCount := 0, pending := none } := by
          intro g' q' hg'
          exact absurd hg' (by simp)
        obtain ⟨hp, hall⟩ := ih now _ (by simpa [eventTime] using hmono') hinv'
        simp only [Option.toList_some, List.cons_append, List.nil_append]
        constructor
        · constructor
          · intro b hb
            simpa using hall b hb
          · exact hp
        · intro c hc
          rcases List.mem_cons.mp hc with hc | hc
          · omega
          · have := hall c hc
            simp only at this
            omega

/-- C6: the gate rejects every candidate while less than
`minSwitchInterval` has elapsed since the last committed switch, and along
every chronological event trace from the initial state the committed
switch timestamps are pairwise at least `minSwitchInterval` apart — the
engine never commits two switches within the interval. -/
theorem abr_min_switch_interval (cfg : ABRConfig)
    (hm : 0 < cfg.minSwitchInterval) :
    (∀ (current target : Option StreamQuality) (now lastSwitchTime : ℕ)
        (bufferLevel healthScore currentBandwidth : ℚ) (stableCount : ℕ),
      now - lastSwitchTime < cfg.minSwitchInterval →
      (shouldSwitch cfg current target now lastSwitchTime bufferLevel
        healthScore currentBandwidth stableCount).1 = false) ∧
    (∀ es : List ABREvent, timesMonotone 0 es = true →
      List.Pairwise (fun a b => a + cfg.minSwitchInterval ≤ b)
        (abrRun cfg abrInit es).2) := by
  constructor
  · intro current target now lastSwitchTime bufferLevel healthScore
      currentBandwidth stableCount htime
    cases target with
    | none => simp [shouldSwitch]
    | some t =>
      by_cases he : cfg.enabled = false <;> simp [shouldSwitch, he, htime]
  · intro es hmono
    have hinv : GateInv cfg 0 abrInit := by
      intro g q hg
      exact absurd hg (by simp [abrInit])
    exact (abrRun_commits cfg hm es 0 abrInit hmono hinv).1

/-- C6 witness: on the concrete two-commit trace (commits at 23000 and
43000 ms) the commit timestamps are separated by the default 10000 ms
interval, and a concrete too-early candidate is rejected. -/
theorem abr_min_switch_interval_witness :
    List.Pairwise (fun a b => a + defaultABRConfig.minSwitchInterval ≤ b)
      (abrRun defaultABRConfig abrInit demoTrace).2 ∧
    (shouldSwitch defaultABRConfig none (some demoQuality) 5000 0 10 90 5 0).1
      = false :=
  ⟨(abr_min_switch_interval defaultABRConfig
      (by norm_num [defaultABRConfig])).2 demoTrace (by decide),
   (abr_min_switch_interval defaultABRConfig
      (by norm_num [defaultABRConfig])).1 none (some demoQuality) 5000 0 10 90 5 0
      (by norm_num [defaultABRConfig])⟩
